import Mathlib

/-!
Verification of the Windows plugin registration shim
(src/windows/flutter_mcp_client_plugin_c_api.cpp).

The shim is a single C-linkage function:

  void FlutterMcpClientPluginCApiRegisterWithRegistrar(
      FlutterDesktopPluginRegistrarRef registrar) {
    flutter_mcp_client::FlutterMcpClientPlugin::RegisterWithRegistrar(
        flutter::PluginRegistrarManager::GetInstance()
            ->GetRegistrar<flutter::PluginRegistrarWindows>(registrar));
  }

We embed it as a pure state-passing function over an abstract host
environment.  The host framework's registrar manager (a process-wide
singleton) and the plugin's registration method are not part of this
repository, so they are parameters of the embedding: an opaque manager
state type together with the two operations the shim calls.  The shim's
own observable behaviour is recorded as an event trace, one event per
call the source makes, in source order.
-/

namespace FlutterMcpClient

/-- Opaque registrar handle (`FlutterDesktopPluginRegistrarRef`), modelled
as a pointer value; `0` stands for the null pointer. -/
structure FlutterDesktopPluginRegistrarRef where
  ptr : Nat
  deriving DecidableEq, Repr

/-- The null registrar handle. -/
def nullHandle : FlutterDesktopPluginRegistrarRef := ⟨0⟩

/-- Strongly-typed registrar pointer (`flutter::PluginRegistrarWindows*`)
as produced by the registrar manager; `0` stands for the null pointer. -/
structure PluginRegistrarWindows where
  ptr : Nat
  deriving DecidableEq, Repr

/-- The null typed-registrar pointer. -/
def nullRegistrarWindows : PluginRegistrarWindows := ⟨0⟩

/-- The host-framework facilities the shim calls, over an abstract
process-wide manager state `σ` (owned by the host, not this repository):
`getRegistrar` models `PluginRegistrarManager::GetRegistrar
<PluginRegistrarWindows>` (it may create and cache a wrapper, hence it
returns an updated manager state), and `registerWithRegistrar` models the
plugin class method `FlutterMcpClientPlugin::RegisterWithRegistrar`, which
registers the plugin with the manager. -/
structure HostEnv (σ : Type) where
  getRegistrar : σ → FlutterDesktopPluginRegistrarRef → PluginRegistrarWindows × σ
  registerWithRegistrar : PluginRegistrarWindows → σ → σ

/-- One observable call made by the shim. -/
inductive Event where
  | getInstance : Event
  | getRegistrar : FlutterDesktopPluginRegistrarRef → Event
  | registerWithRegistrar : PluginRegistrarWindows → Event
  deriving DecidableEq, Repr

/-- Is the event an invocation of the plugin's registration method? -/
def Event.isRegisterCall : Event → Bool
  | Event.registerWithRegistrar _ => true
  | _ => false

/-- Whole program state: the process-wide registrar-manager state `σ`
together with every other component `ρ` of the program state, which the
shim does not touch. -/
structure ProgState (σ ρ : Type) where
  manager : σ
  rest : ρ
  deriving DecidableEq, Repr

/-- Result of one call of the shim: the C return value (`void`, i.e.
`Unit`), the program state after the call, and the trace of calls made. -/
structure CApiCall (σ ρ : Type) where
  ret : Unit
  state : ProgState σ ρ
  trace : List Event

/-- Embedding of the C-linkage function
`FlutterMcpClientPluginCApiRegisterWithRegistrar`: obtain the singleton
manager, resolve the opaque handle to a typed registrar, and forward the
typed registrar to `FlutterMcpClientPlugin::RegisterWithRegistrar`. -/
def FlutterMcpClientPluginCApiRegisterWithRegistrar {σ ρ : Type}
    (env : HostEnv σ) (st : ProgState σ ρ)
    (registrar : FlutterDesktopPluginRegistrarRef) : CApiCall σ ρ :=
  let resolved := env.getRegistrar st.manager registrar
  let afterRegister := env.registerWithRegistrar resolved.1 resolved.2
  { ret := ()
    state := { manager := afterRegister, rest := st.rest }
    trace := [Event.getInstance, Event.getRegistrar registrar,
              Event.registerWithRegistrar resolved.1] }

/-- A C function signature: symbol name, parameter types, return type. -/
structure CSignature where
  name : String
  paramTypes : List String
  returnType : String
  deriving DecidableEq, Repr

/-- The exported C-linkage signature exactly as written in the source
file (lines 7 and 8 of the .cpp). -/
def cApiExportedSignature : CSignature :=
  { name := "FlutterMcpClientPluginCApiRegisterWithRegistrar"
    paramTypes := ["FlutterDesktopPluginRegistrarRef"]
    returnType := "void" }

/-- Modelled from the spec: the entry-point signature fixed by the host
plugin-loading convention (the convention itself is host-framework code
not present in this repository) — the registration entry point for this
plugin, taking one opaque registrar reference and returning nothing. -/
def hostConventionSignature : CSignature :=
  { name := "FlutterMcpClientPluginCApiRegisterWithRegistrar"
    paramTypes := ["FlutterDesktopPluginRegistrarRef"]
    returnType := "void" }

/- Concrete host environments and states used by the witness theorems. -/

/-- A demonstration host environment over manager state `Nat`: resolving
a handle bumps the manager state and yields a fresh typed registrar, and
registering adds the registrar pointer into the manager state. -/
def demoEnv : HostEnv Nat :=
  { getRegistrar := fun s _ => (⟨s + 1⟩, s + 1)
    registerWithRegistrar := fun reg s => s + reg.ptr }

/-- A demonstration host environment whose resolver yields the null typed
registrar for every handle. -/
def demoNullEnv : HostEnv Nat :=
  { getRegistrar := fun s _ => (⟨0⟩, s)
    registerWithRegistrar := fun reg s => s + reg.ptr }

/-- A demonstration program state. -/
def demoState : ProgState Nat Nat := { manager := 0, rest := 7 }

/-- A demonstration program state with nonzero manager state. -/
def demoState1 : ProgState Nat Nat := { manager := 2, rest := 7 }

/-- A demonstration program state with a different rest-of-program type. -/
def demoStateB : ProgState Nat Bool := { manager := 0, rest := true }

end FlutterMcpClient

namespace FlutterMcpClient

/-- Claim C1: a single call of the shim invokes the plugin's registration
method exactly once, with exactly the typed registrar obtained from the
manager singleton's resolver applied to the input handle, and makes no
other call: its complete trace is obtain-singleton, resolve handle,
register resolved registrar. -/
theorem c1_registers_exactly_once {σ ρ : Type} (env : HostEnv σ)
    (st : ProgState σ ρ) (r : FlutterDesktopPluginRegistrarRef) :
    (FlutterMcpClientPluginCApiRegisterWithRegistrar env st r).trace =
      [Event.getInstance, Event.getRegistrar r,
       Event.registerWithRegistrar (env.getRegistrar st.manager r).1] ∧
    ((FlutterMcpClientPluginCApiRegisterWithRegistrar env st r).trace.countP
      Event.isRegisterCall) = 1 :=
  ⟨rfl, rfl⟩

/-- Claim C2: the shim has no error branch: for every handle it returns
normally (the `void` return value) and completes the forwarding call (the
registration event is in its trace). -/
theorem c2_never_fails {σ ρ : Type} (env : HostEnv σ)
    (st : ProgState σ ρ) (r : FlutterDesktopPluginRegistrarRef) :
    (FlutterMcpClientPluginCApiRegisterWithRegistrar env st r).ret = () ∧
    Event.registerWithRegistrar (env.getRegistrar st.manager r).1 ∈
      (FlutterMcpClientPluginCApiRegisterWithRegistrar env st r).trace := by
  refine ⟨rfl, ?_⟩
  simp [FlutterMcpClientPluginCApiRegisterWithRegistrar]

/-- Claim C3: the shim never inspects, stores, or mutates the handle: the
handle passed to the resolver is identical to the input, and the post-call
state depends on the handle only through the resolver — two handles the
resolver treats alike leave identical states, so no copy of the handle is
retained. -/
theorem c3_handle_forwarded_opaque {σ ρ : Type} (env : HostEnv σ)
    (st : ProgState σ ρ) (r r' : FlutterDesktopPluginRegistrarRef)
    (h : env.getRegistrar st.manager r = env.getRegistrar st.manager r') :
    Event.getRegistrar r ∈
      (FlutterMcpClientPluginCApiRegisterWithRegistrar env st r).trace ∧
    (FlutterMcpClientPluginCApiRegisterWithRegistrar env st r).state =
      (FlutterMcpClientPluginCApiRegisterWithRegistrar env st r').state := by
  constructor
  · simp [FlutterMcpClientPluginCApiRegisterWithRegistrar]
  · simp only [FlutterMcpClientPluginCApiRegisterWithRegistrar]
    rw [h]

/-- Witness for C3 at a concrete environment whose resolver ignores the
handle value, with two distinct handles. -/
theorem c3_witness :
    Event.getRegistrar ⟨1⟩ ∈
      (FlutterMcpClientPluginCApiRegisterWithRegistrar demoEnv demoState ⟨1⟩).trace ∧
    (FlutterMcpClientPluginCApiRegisterWithRegistrar demoEnv demoState ⟨1⟩).state =
      (FlutterMcpClientPluginCApiRegisterWithRegistrar demoEnv demoState ⟨2⟩).state :=
  c3_handle_forwarded_opaque demoEnv demoState ⟨1⟩ ⟨2⟩ rfl

/-- Claim C4: the only program-state component the shim mutates is the
process-wide registrar-manager state (changed exactly by resolving the
handle and then registering the plugin); every other component of the
program state is unchanged. -/
theorem c4_frame_only_manager {σ ρ : Type} (env : HostEnv σ)
    (st : ProgState σ ρ) (r : FlutterDesktopPluginRegistrarRef) :
    (FlutterMcpClientPluginCApiRegisterWithRegistrar env st r).state.rest =
      st.rest ∧
    (FlutterMcpClientPluginCApiRegisterWithRegistrar env st r).state.manager =
      env.registerWithRegistrar (env.getRegistrar st.manager r).1
        (env.getRegistrar st.manager r).2 :=
  ⟨rfl, rfl⟩

/-- Claim C5: the entry point takes exactly one parameter, an opaque
registrar reference, and returns nothing: its result is the unit value
for every input, and its declared C signature has one parameter of the
handle type and return type void. -/
theorem c5_unit_result_one_param {σ ρ : Type} (env : HostEnv σ)
    (st : ProgState σ ρ) (r : FlutterDesktopPluginRegistrarRef) :
    (FlutterMcpClientPluginCApiRegisterWithRegistrar env st r).ret = () ∧
    cApiExportedSignature.paramTypes = ["FlutterDesktopPluginRegistrarRef"] ∧
    cApiExportedSignature.returnType = "void" :=
  ⟨rfl, rfl, rfl⟩

/-- Claim C6: no validation of the input is performed: for every handle,
including the null handle, the shim unconditionally forwards exactly that
handle to the resolver with no guard or early return — the trace always
has full length three with the resolve event carrying the input handle. -/
theorem c6_no_validation {σ ρ : Type} (env : HostEnv σ)
    (st : ProgState σ ρ) (r : FlutterDesktopPluginRegistrarRef) :
    Event.getRegistrar r ∈
      (FlutterMcpClientPluginCApiRegisterWithRegistrar env st r).trace ∧
    (FlutterMcpClientPluginCApiRegisterWithRegistrar env st r).trace.length = 3 ∧
    Event.getRegistrar nullHandle ∈
      (FlutterMcpClientPluginCApiRegisterWithRegistrar env st nullHandle).trace := by
  refine ⟨?_, rfl, ?_⟩ <;>
    simp [FlutterMcpClientPluginCApiRegisterWithRegistrar]

/-- Claim C7: the exported entry point's name and C-linkage signature are
exactly those fixed by the host plugin-loading convention, byte for
byte. -/
theorem c7_symbol_preserved :
    cApiExportedSignature = hostConventionSignature ∧
    cApiExportedSignature.name =
      "FlutterMcpClientPluginCApiRegisterWithRegistrar" :=
  ⟨rfl, rfl⟩

/-- Claim C8: the resolved typed registrar is forwarded to the plugin's
registration method unconditionally: even when the resolver yields the
null typed registrar, the registration method is still invoked with it. -/
theorem c8_forwards_resolved_unconditionally {σ ρ : Type} (env : HostEnv σ)
    (st : ProgState σ ρ) (r : FlutterDesktopPluginRegistrarRef)
    (h : (env.getRegistrar st.manager r).1 = nullRegistrarWindows) :
    Event.registerWithRegistrar nullRegistrarWindows ∈
      (FlutterMcpClientPluginCApiRegisterWithRegistrar env st r).trace := by
  simp [FlutterMcpClientPluginCApiRegisterWithRegistrar, ← h]

/-- Witness for C8 at a concrete environment whose resolver yields the
null typed registrar. -/
theorem c8_witness :
    Event.registerWithRegistrar nullRegistrarWindows ∈
      (FlutterMcpClientPluginCApiRegisterWithRegistrar demoNullEnv demoState
        nullHandle).trace :=
  c8_forwards_resolved_unconditionally demoNullEnv demoState nullHandle rfl

/-- Claim C9: the shim is deterministic: two calls with the same handle
and the same registrar-manager state resolve the same typed registrar,
make the same calls (equal traces) and leave the manager in the same
resulting state. -/
theorem c9_deterministic {σ ρ ρ' : Type} (env : HostEnv σ)
    (st : ProgState σ ρ) (st' : ProgState σ ρ')
    (r : FlutterDesktopPluginRegistrarRef) (h : st.manager = st'.manager) :
    (FlutterMcpClientPluginCApiRegisterWithRegistrar env st r).trace =
      (FlutterMcpClientPluginCApiRegisterWithRegistrar env st' r).trace ∧
    (FlutterMcpClientPluginCApiRegisterWithRegistrar env st r).state.manager =
      (FlutterMcpClientPluginCApiRegisterWithRegistrar env st' r).state.manager := by
  simp [FlutterMcpClientPluginCApiRegisterWithRegistrar, h]

/-- Witness for C9 at two concrete program states sharing the manager
component but differing elsewhere. -/
theorem c9_witness :
    (FlutterMcpClientPluginCApiRegisterWithRegistrar demoEnv demoState ⟨1⟩).trace =
      (FlutterMcpClientPluginCApiRegisterWithRegistrar demoEnv demoStateB ⟨1⟩).trace ∧
    (FlutterMcpClientPluginCApiRegisterWithRegistrar demoEnv demoState
        ⟨1⟩).state.manager =
      (FlutterMcpClientPluginCApiRegisterWithRegistrar demoEnv demoStateB
        ⟨1⟩).state.manager :=
  c9_deterministic demoEnv demoState demoStateB ⟨1⟩ rfl

/-- Claim C10: the shim is stateless: it threads no state of its own, so
every invariant of the registrar-manager state preserved by the host's
resolver and by the plugin's registration method is preserved by one shim
call, and successive calls interact only through the manager state one
call leaves for the next. -/
theorem c10_stateless_preserves_invariants {σ ρ : Type} (env : HostEnv σ)
    (P : σ → Prop)
    (hget : ∀ s h, P s → P (env.getRegistrar s h).2)
    (hreg : ∀ reg s, P s → P (env.registerWithRegistrar reg s))
    (st : ProgState σ ρ) (r r2 : FlutterDesktopPluginRegistrarRef)
    (hP : P st.manager) :
    P ((FlutterMcpClientPluginCApiRegisterWithRegistrar env st r).state.manager) ∧
    P ((FlutterMcpClientPluginCApiRegisterWithRegistrar env
        (FlutterMcpClientPluginCApiRegisterWithRegistrar env st r).state
        r2).state.manager) := by
  refine ⟨hreg _ _ (hget _ _ hP), hreg _ _ (hget _ _ (hreg _ _ (hget _ _ hP)))⟩

/-- Witness for C10: the invariant that the manager state is at least one
is preserved across two successive shim calls in a concrete environment. -/
theorem c10_witness :
    1 ≤ (FlutterMcpClientPluginCApiRegisterWithRegistrar demoEnv demoState1
        ⟨0⟩).state.manager ∧
    1 ≤ (FlutterMcpClientPluginCApiRegisterWithRegistrar demoEnv
        (FlutterMcpClientPluginCApiRegisterWithRegistrar demoEnv demoState1
          ⟨0⟩).state ⟨0⟩).state.manager :=
  c10_stateless_preserves_invariants demoEnv (fun s => 1 ≤ s)
    (fun s h hs => by simp only [demoEnv]; omega)
    (fun reg s hs => by simp only [demoEnv]; omega)
    demoState1 ⟨0⟩ ⟨0⟩ (by decide)

end FlutterMcpClient
